import Mathlib

/-
Verification of the Riders Luxury service-worker caching engine.

The definitions below are a shallow embedding of the service worker in
`sw.js` (the intercepting worker: request classification, the three
caching strategies, cache lifecycle, offline mutation queue, and
notification dispatch) and of the second, simpler worker variant in
`public/sw.js`.

Modelling conventions:
- A stored response snapshot is a `Response` (status, status text, body).
- A cache (`Store`) is an association list from request key (the request
  URL string) to `Response`, kept in insertion order; `Store.put` models
  `Cache.put` (replace the entry for the key, the fresh entry last).
- The cache storage (`Caches`) is a list of named stores in creation
  order; `Caches.matchAll` models `caches.match` (first match across the
  stores in order), `Caches.openStore` models `caches.open` (create an
  empty store if absent).
- A network fetch outcome is a `NetResult`: `success r` for a resolved
  response `r` (of any status), `failure` for a rejected fetch.
- A strategy outcome carries the delivered result (`FetchResult`: a
  response, a propagated rejection, or the `undefined` a swallowed
  rejection resolves to), the updated cache storage, and how many
  network fetches were issued.
-/

namespace RidersSW

structure Response where
  status : Nat
  statusText : String
  body : String
  deriving Repr, DecidableEq

/-- `response.ok`: status in the 2xx range. -/
def Response.ok (r : Response) : Bool :=
  decide (200 ≤ r.status ∧ r.status < 300)

abbrev Store := List (String × Response)

def Store.matchKey : Store → String → Option Response
  | [], _ => none
  | e :: rest, key => if e.1 == key then some e.2 else Store.matchKey rest key

def Store.put : Store → String → Response → Store
  | [], key, r => [(key, r)]
  | e :: rest, key, r =>
    if e.1 == key then Store.put rest key r else e :: Store.put rest key r

abbrev Caches := List (String × Store)

def Caches.names (cs : Caches) : List String := cs.map Prod.fst

def Caches.hasStore : Caches → String → Bool
  | [], _ => false
  | p :: rest, name => p.1 == name || Caches.hasStore rest name

def Caches.get : Caches → String → Store
  | [], _ => []
  | p :: rest, name => if p.1 == name then p.2 else Caches.get rest name

def Caches.openStore (cs : Caches) (name : String) : Caches :=
  if cs.hasStore name then cs else cs ++ [(name, [])]

def Caches.updateStore : Caches → String → (Store → Store) → Caches
  | [], _, _ => []
  | p :: rest, name, g =>
    if p.1 == name then (p.1, g p.2) :: Caches.updateStore rest name g
    else p :: Caches.updateStore rest name g

def Caches.putIn (cs : Caches) (name key : String) (r : Response) : Caches :=
  (cs.openStore name).updateStore name (fun s => s.put key r)

def Caches.matchAll : Caches → String → Option Response
  | [], _ => none
  | p :: rest, key =>
    match p.2.matchKey key with
    | some r => some r
    | none => Caches.matchAll rest key

/- Constants of the main worker (sw.js). -/

def CACHE_NAME : String := "riders-luxury-v1.0.0"

def STATIC_CACHE : String := "riders-static-v1.0.0"

def DYNAMIC_CACHE : String := "riders-dynamic-v1.0.0"

def STATIC_ASSETS : List String :=
  ["/", "/index.html", "/css/style.css", "/js/app.js", "/js/auth.js",
   "/js/rides.js", "/js/bookings.js", "/js/ui.js", "/js/pwa.js",
   "/manifest.json", "/icons/icon-192x192.png", "/icons/icon-512x512.png",
   "/icons/apple-touch-icon.png", "/icons/favicon-32x32.png",
   "/icons/favicon-16x16.png",
   "https://fonts.googleapis.com/css2?family=Inter:wght@300;400;500;600;700&family=Playfair+Display:wght@400;600;700&display=swap",
   "https://cdnjs.cloudflare.com/ajax/libs/font-awesome/6.4.0/css/all.min.css"]

def API_CACHE_PATTERNS : List String :=
  ["/api/rides/search", "/api/users/profile", "/api/auth/me"]

/- Network and strategy outcome types. -/

inductive NetResult where
  | success (r : Response)
  | failure
  deriving Repr, DecidableEq

inductive FetchResult where
  | delivered (r : Response)
  | failed
  | undef
  deriving Repr, DecidableEq

structure StrategyOutcome where
  result : FetchResult
  caches : Caches
  netCalls : Nat
  deriving Repr, DecidableEq

/-- Network First strategy (sw.js `networkFirst`): fetch; on a 2xx
response write it into the dynamic cache and return it; on a rejected
fetch fall back to `caches.match`, rethrowing when nothing is cached. -/
def networkFirst (net : NetResult) (key : String) (cs : Caches) : StrategyOutcome :=
  match net with
  | NetResult.success r =>
    if r.ok then
      { result := FetchResult.delivered r,
        caches := cs.putIn DYNAMIC_CACHE key r, netCalls := 1 }
    else
      { result := FetchResult.delivered r, caches := cs, netCalls := 1 }
  | NetResult.failure =>
    match cs.matchAll key with
    | some c => { result := FetchResult.delivered c, caches := cs, netCalls := 1 }
    | none => { result := FetchResult.failed, caches := cs, netCalls := 1 }

/-- Cache First strategy (sw.js `cacheFirst`): `caches.match` first and
return the hit without fetching; otherwise fetch, writing a 2xx response
into the static cache; a rejected fetch is rethrown. -/
def cacheFirst (net : NetResult) (key : String) (cs : Caches) : StrategyOutcome :=
  match cs.matchAll key with
  | some c => { result := FetchResult.delivered c, caches := cs, netCalls := 0 }
  | none =>
    match net with
    | NetResult.success r =>
      if r.ok then
        { result := FetchResult.delivered r,
          caches := cs.putIn STATIC_CACHE key r, netCalls := 1 }
      else
        { result := FetchResult.delivered r, caches := cs, netCalls := 1 }
    | NetResult.failure =>
      { result := FetchResult.failed, caches := cs, netCalls := 1 }

/-- What the background `fetchPromise` of `staleWhileRevalidate` resolves
to: the response on success, `undefined` after the swallowing `.catch`. -/
def swrFetchOutcome (net : NetResult) : FetchResult :=
  match net with
  | NetResult.success r => FetchResult.delivered r
  | NetResult.failure => FetchResult.undef

/-- Stale While Revalidate strategy (sw.js `staleWhileRevalidate`): open
the dynamic cache and look the key up there; always issue the fetch,
whose 2xx result is written back and whose rejection is swallowed; a
cached entry is returned without awaiting the fetch, otherwise the
caller gets the fetch outcome. -/
def staleWhileRevalidate (net : NetResult) (key : String) (cs : Caches) : StrategyOutcome :=
  let cs1 := cs.openStore DYNAMIC_CACHE
  let cached := (cs1.get DYNAMIC_CACHE).matchKey key
  let cs2 :=
    match net with
    | NetResult.success r => if r.ok then cs1.putIn DYNAMIC_CACHE key r else cs1
    | NetResult.failure => cs1
  match cached with
  | some c => { result := FetchResult.delivered c, caches := cs2, netCalls := 1 }
  | none => { result := swrFetchOutcome net, caches := cs2, netCalls := 1 }

/- Basic store lemmas. -/

theorem Store.matchKey_put_self (s : Store) (key : String) (r : Response) :
    (s.put key r).matchKey key = some r := by
  induction s with
  | nil => simp [Store.put, Store.matchKey]
  | cons e rest ih =>
    cases h : e.1 == key with
    | true => simp [Store.put, h, ih]
    | false => simp [Store.put, Store.matchKey, h, ih]

theorem Store.matchKey_put_ne (s : Store) (key key' : String) (r : Response)
    (h : key' ≠ key) :
    (s.put key r).matchKey key' = s.matchKey key' := by
  have hkk : (key == key') = false := by
    simp only [beq_eq_false_iff_ne, ne_eq]
    exact fun hh => h hh.symm
  induction s with
  | nil => simp [Store.put, Store.matchKey, hkk]
  | cons e rest ih =>
    cases he : e.1 == key with
    | true =>
      have he1 : e.1 = key := by simpa using he
      have hek : (e.1 == key') = false := by
        simp only [beq_eq_false_iff_ne, ne_eq, he1]
        exact fun hh => h hh.symm
      simp [Store.put, Store.matchKey, he, ih, hek]
    | false => simp [Store.put, Store.matchKey, he, ih]

theorem Caches.get_eq_nil_of_not_hasStore (cs : Caches) (name : String)
    (h : cs.hasStore name = false) : cs.get name = [] := by
  induction cs with
  | nil => rfl
  | cons p rest ih =>
    simp only [Caches.hasStore, Bool.or_eq_false_iff] at h
    simp [Caches.get, h.1, ih h.2]

theorem Caches.get_append_of_not_hasStore (cs l : Caches) (name : String)
    (h : cs.hasStore name = false) : (cs ++ l).get name = l.get name := by
  induction cs with
  | nil => rfl
  | cons p rest ih =>
    simp only [Caches.hasStore, Bool.or_eq_false_iff] at h
    simp [Caches.get, h.1, ih h.2]

theorem Caches.get_openStore_self (cs : Caches) (name : String) :
    (cs.openStore name).get name = cs.get name := by
  unfold Caches.openStore
  cases h : cs.hasStore name with
  | true => rfl
  | false =>
    rw [if_neg (by simp [h])]
    rw [Caches.get_append_of_not_hasStore cs _ name h,
      Caches.get_eq_nil_of_not_hasStore cs name h]
    simp [Caches.get]

theorem Caches.hasStore_openStore_self (cs : Caches) (name : String) :
    (cs.openStore name).hasStore name = true := by
  unfold Caches.openStore
  cases h : cs.hasStore name with
  | true => simpa using h
  | false =>
    rw [if_neg (by simp [h])]
    induction cs with
    | nil => simp [Caches.hasStore]
    | cons p rest ih =>
      simp only [Caches.hasStore, Bool.or_eq_false_iff] at h
      simp [Caches.hasStore, ih h.2]

theorem Caches.get_updateStore_self (cs : Caches) (name : String) (g : Store → Store)
    (h : cs.hasStore name = true) :
    (cs.updateStore name g).get name = g (cs.get name) := by
  induction cs with
  | nil => simp [Caches.hasStore] at h
  | cons p rest ih =>
    cases hp : p.1 == name with
    | true => simp [Caches.updateStore, Caches.get, hp]
    | false =>
      simp only [Caches.hasStore, hp, Bool.false_or] at h
      simp [Caches.updateStore, Caches.get, hp, ih h]

theorem Caches.get_putIn_self (cs : Caches) (name key : String) (r : Response) :
    (cs.putIn name key r).get name = (cs.get name).put key r := by
  unfold Caches.putIn
  rw [Caches.get_updateStore_self _ _ _ (Caches.hasStore_openStore_self cs name),
    Caches.get_openStore_self]

/-- C1: network-first for ApiCall requests — the network is attempted
first; a 2xx network response is returned and written over the dynamic
store entry for the key; on network failure a cached entry for the key
is returned when one exists (in particular the prior dynamic-store
entry, in the deployed static-then-dynamic storage layout), and with no
entry the failure propagates. -/
theorem networkFirst_network_first_contract (key : String) (r c : Response) (cs : Caches) :
    (r.ok = true →
      (networkFirst (NetResult.success r) key cs).result = FetchResult.delivered r ∧
      ((networkFirst (NetResult.success r) key cs).caches.get DYNAMIC_CACHE).matchKey key
        = some r) ∧
    (cs.matchAll key = some c →
      networkFirst NetResult.failure key cs =
        { result := FetchResult.delivered c, caches := cs, netCalls := 1 }) ∧
    (∀ s d : Store, s.matchKey key = none → d.matchKey key = some c →
      networkFirst NetResult.failure key [(STATIC_CACHE, s), (DYNAMIC_CACHE, d)] =
        { result := FetchResult.delivered c,
          caches := [(STATIC_CACHE, s), (DYNAMIC_CACHE, d)], netCalls := 1 }) ∧
    (cs.matchAll key = none →
      networkFirst NetResult.failure key cs =
        { result := FetchResult.failed, caches := cs, netCalls := 1 }) := by
  refine ⟨fun hok => ?_, fun hc => ?_, fun s d hs hd => ?_, fun hn => ?_⟩
  · constructor
    · simp [networkFirst, hok]
    · simp [networkFirst, hok, Caches.get_putIn_self, Store.matchKey_put_self]
  · simp [networkFirst, hc]
  · simp [networkFirst, Caches.matchAll, hs, hd]
  · simp [networkFirst, hn]

def apiResp : Response := { status := 200, statusText := "OK", body := "fresh rides" }

def apiRespOld : Response := { status := 200, statusText := "OK", body := "cached rides" }

theorem networkFirst_network_first_contract_witness :
    (apiResp.ok = true ∧
      (networkFirst (NetResult.success apiResp) "/api/rides/search" []).result
        = FetchResult.delivered apiResp ∧
      ((networkFirst (NetResult.success apiResp) "/api/rides/search" []).caches.get
        DYNAMIC_CACHE).matchKey "/api/rides/search" = some apiResp) ∧
    (Caches.matchAll [(DYNAMIC_CACHE, [("/api/rides/search", apiRespOld)])]
        "/api/rides/search" = some apiRespOld ∧
      networkFirst NetResult.failure "/api/rides/search"
          [(DYNAMIC_CACHE, [("/api/rides/search", apiRespOld)])] =
        { result := FetchResult.delivered apiRespOld,
          caches := [(DYNAMIC_CACHE, [("/api/rides/search", apiRespOld)])],
          netCalls := 1 }) ∧
    (Caches.matchAll [] "/api/rides/search" = none ∧
      networkFirst NetResult.failure "/api/rides/search" [] =
        { result := FetchResult.failed, caches := [], netCalls := 1 }) := by
  refine ⟨⟨by decide, ?_⟩, ⟨by decide, ?_⟩, ⟨by decide, ?_⟩⟩
  · exact (networkFirst_network_first_contract "/api/rides/search" apiResp apiRespOld
      []).1 (by decide)
  · exact (networkFirst_network_first_contract "/api/rides/search" apiResp apiRespOld
      [(DYNAMIC_CACHE, [("/api/rides/search", apiRespOld)])]).2.1 (by decide)
  · exact (networkFirst_network_first_contract "/api/rides/search" apiResp apiRespOld
      []).2.2.2 (by decide)

/-- C2: cache-first for StaticAsset requests — a cached entry for the key
(in particular a static-store entry, the static store being the first
created store) is returned with zero network fetches; with no cached
entry the network is fetched once: a 2xx response is written into the
static store and returned, a non-2xx response is returned unstored, and
a rejected fetch propagates. -/
theorem cacheFirst_cache_first_contract (key : String) (r c : Response) (cs : Caches) :
    (∀ net, cs.matchAll key = some c →
      cacheFirst net key cs =
        { result := FetchResult.delivered c, caches := cs, netCalls := 0 }) ∧
    (∀ net, ∀ s : Store, ∀ rest : Caches, s.matchKey key = some c →
      cacheFirst net key ((STATIC_CACHE, s) :: rest) =
        { result := FetchResult.delivered c,
          caches := (STATIC_CACHE, s) :: rest, netCalls := 0 }) ∧
    (cs.matchAll key = none → r.ok = true →
      (cacheFirst (NetResult.success r) key cs).result = FetchResult.delivered r ∧
      ((cacheFirst (NetResult.success r) key cs).caches.get STATIC_CACHE).matchKey key
        = some r ∧
      (cacheFirst (NetResult.success r) key cs).netCalls = 1) ∧
    (cs.matchAll key = none → r.ok = false →
      cacheFirst (NetResult.success r) key cs =
        { result := FetchResult.delivered r, caches := cs, netCalls := 1 }) ∧
    (cs.matchAll key = none →
      cacheFirst NetResult.failure key cs =
        { result := FetchResult.failed, caches := cs, netCalls := 1 }) := by
  refine ⟨fun net hc => ?_, fun net s rest hs => ?_, fun hn hok => ?_,
    fun hn hbad => ?_, fun hn => ?_⟩
  · simp [cacheFirst, hc]
  · simp [cacheFirst, Caches.matchAll, hs]
  · refine ⟨?_, ?_, ?_⟩
    · simp [cacheFirst, hn, hok]
    · simp [cacheFirst, hn, hok, Caches.get_putIn_self, Store.matchKey_put_self]
    · simp [cacheFirst, hn, hok]
  · simp [cacheFirst, hn, hbad]
  · simp [cacheFirst, hn]

def cssResp : Response := { status := 200, statusText := "OK", body := "body-css" }

def cssRespOld : Response := { status := 200, statusText := "OK", body := "old-css" }

def cssResp404 : Response := { status := 404, statusText := "Not Found", body := "" }

theorem cacheFirst_cache_first_contract_witness :
    (Caches.matchAll [(STATIC_CACHE, [("/css/style.css", cssRespOld)])]
        "/css/style.css" = some cssRespOld ∧
      cacheFirst NetResult.failure "/css/style.css"
          [(STATIC_CACHE, [("/css/style.css", cssRespOld)])] =
        { result := FetchResult.delivered cssRespOld,
          caches := [(STATIC_CACHE, [("/css/style.css", cssRespOld)])],
          netCalls := 0 }) ∧
    (Store.matchKey [("/css/style.css", cssRespOld)] "/css/style.css"
        = some cssRespOld ∧
      cacheFirst NetResult.failure "/css/style.css"
          [(STATIC_CACHE, [("/css/style.css", cssRespOld)]), (DYNAMIC_CACHE, [])] =
        { result := FetchResult.delivered cssRespOld,
          caches := [(STATIC_CACHE, [("/css/style.css", cssRespOld)]),
            (DYNAMIC_CACHE, [])],
          netCalls := 0 }) ∧
    (Caches.matchAll [] "/css/style.css" = none ∧ cssResp.ok = true ∧
      (cacheFirst (NetResult.success cssResp) "/css/style.css" []).result
        = FetchResult.delivered cssResp ∧
      ((cacheFirst (NetResult.success cssResp) "/css/style.css" []).caches.get
        STATIC_CACHE).matchKey "/css/style.css" = some cssResp ∧
      (cacheFirst (NetResult.success cssResp) "/css/style.css" []).netCalls = 1) ∧
    (cssResp404.ok = false ∧
      cacheFirst (NetResult.success cssResp404) "/css/style.css" [] =
        { result := FetchResult.delivered cssResp404, caches := [], netCalls := 1 }) ∧
    (cacheFirst NetResult.failure "/css/style.css" [] =
        { result := FetchResult.failed, caches := [], netCalls := 1 }) := by
  refine ⟨⟨by decide, ?_⟩, ⟨by decide, ?_⟩, ⟨by decide, by decide, ?_⟩,
    ⟨by decide, ?_⟩, ?_⟩
  · exact (cacheFirst_cache_first_contract "/css/style.css" cssResp cssRespOld
      [(STATIC_CACHE, [("/css/style.css", cssRespOld)])]).1 NetResult.failure (by decide)
  · exact (cacheFirst_cache_first_contract "/css/style.css" cssResp cssRespOld
      []).2.1 NetResult.failure [("/css/style.css", cssRespOld)] [(DYNAMIC_CACHE, [])]
      (by decide)
  · exact (cacheFirst_cache_first_contract "/css/style.css" cssResp cssRespOld
      []).2.2.1 (by decide) (by decide)
  · exact (cacheFirst_cache_first_contract "/css/style.css" cssResp404 cssRespOld
      []).2.2.2.1 (by decide) (by decide)
  · exact (cacheFirst_cache_first_contract "/css/style.css" cssResp cssRespOld
      []).2.2.2.2 (by decide)

/-- C3: stale-while-revalidate for Other requests — with a dynamic-store
entry for the key the entry itself is returned whatever the network
outcome (so neither a network failure nor the fetched value reaches the
caller), while the concurrently issued fetch (always exactly one) writes
a 2xx result back into the dynamic store; with no entry the caller
receives the fetch outcome, a swallowed failure resolving to undefined. -/
theorem staleWhileRevalidate_swr_contract (key : String) (c r : Response) (cs : Caches) :
    ((cs.get DYNAMIC_CACHE).matchKey key = some c →
      ∀ net, (staleWhileRevalidate net key cs).result = FetchResult.delivered c ∧
        (staleWhileRevalidate net key cs).netCalls = 1) ∧
    (r.ok = true →
      ((staleWhileRevalidate (NetResult.success r) key cs).caches.get
        DYNAMIC_CACHE).matchKey key = some r) ∧
    ((cs.get DYNAMIC_CACHE).matchKey key = none →
      ∀ net, (staleWhileRevalidate net key cs).result = swrFetchOutcome net ∧
        (staleWhileRevalidate net key cs).netCalls = 1) := by
  refine ⟨fun hc net => ?_, fun hok => ?_, fun hn net => ?_⟩
  · have hc1 : ((cs.openStore DYNAMIC_CACHE).get DYNAMIC_CACHE).matchKey key = some c := by
      rw [Caches.get_openStore_self]; exact hc
    constructor <;> simp [staleWhileRevalidate, hc1]
  · have hcaches : (staleWhileRevalidate (NetResult.success r) key cs).caches
        = (cs.openStore DYNAMIC_CACHE).putIn DYNAMIC_CACHE key r := by
      simp only [staleWhileRevalidate, hok, if_true]
      cases ((cs.openStore DYNAMIC_CACHE).get DYNAMIC_CACHE).matchKey key <;> rfl
    rw [hcaches, Caches.get_putIn_self, Caches.get_openStore_self,
      Store.matchKey_put_self]
  · have hn1 : ((cs.openStore DYNAMIC_CACHE).get DYNAMIC_CACHE).matchKey key = none := by
      rw [Caches.get_openStore_self]; exact hn
    constructor <;> simp [staleWhileRevalidate, hn1]

def pageResp : Response := { status := 200, statusText := "OK", body := "fresh page" }

def pageRespOld : Response := { status := 200, statusText := "OK", body := "stale page" }

theorem staleWhileRevalidate_swr_contract_witness :
    ((Caches.get [(DYNAMIC_CACHE, [("/profile", pageRespOld)])] DYNAMIC_CACHE).matchKey
        "/profile" = some pageRespOld ∧
      ((staleWhileRevalidate NetResult.failure "/profile"
          [(DYNAMIC_CACHE, [("/profile", pageRespOld)])]).result
        = FetchResult.delivered pageRespOld ∧
       (staleWhileRevalidate NetResult.failure "/profile"
          [(DYNAMIC_CACHE, [("/profile", pageRespOld)])]).netCalls = 1)) ∧
    (pageResp.ok = true ∧
      ((staleWhileRevalidate (NetResult.success pageResp) "/profile"
          [(DYNAMIC_CACHE, [("/profile", pageRespOld)])]).caches.get
        DYNAMIC_CACHE).matchKey "/profile" = some pageResp) ∧
    ((Caches.get ([] : Caches) DYNAMIC_CACHE).matchKey "/profile" = none ∧
      ((staleWhileRevalidate NetResult.failure "/profile" []).result
        = swrFetchOutcome NetResult.failure ∧
       (staleWhileRevalidate NetResult.failure "/profile" []).netCalls = 1)) := by
  refine ⟨⟨by decide, ?_⟩, ⟨by decide, ?_⟩, ⟨by decide, ?_⟩⟩
  · exact (staleWhileRevalidate_swr_contract "/profile" pageRespOld pageResp
      [(DYNAMIC_CACHE, [("/profile", pageRespOld)])]).1 (by decide) NetResult.failure
  · exact (staleWhileRevalidate_swr_contract "/profile" pageRespOld pageResp
      [(DYNAMIC_CACHE, [("/profile", pageRespOld)])]).2.1 (by decide)
  · exact (staleWhileRevalidate_swr_contract "/profile" pageRespOld pageResp
      []).2.2 (by decide) NetResult.failure

/- The JS string primitives the worker relies on (`startsWith`,
`endsWith`, `includes`, `toLowerCase`), modelled as structural recursion
over the character list so that concrete inputs evaluate. -/

def listBeginsWith : List Char → List Char → Bool
  | _, [] => true
  | [], _ :: _ => false
  | a :: as, b :: bs => a == b && listBeginsWith as bs

def strStartsWith (s pre : String) : Bool := listBeginsWith s.data pre.data

def strEndsWith (s suf : String) : Bool :=
  listBeginsWith s.data.reverse suf.data.reverse

def listHasInfix : List Char → List Char → Bool
  | [], pat => listBeginsWith [] pat
  | c :: rest, pat => listBeginsWith (c :: rest) pat || listHasInfix rest pat

def strIncludes (s pat : String) : Bool := listHasInfix s.data pat.data

def lowerChar (c : Char) : Char :=
  if 65 ≤ c.toNat ∧ c.toNat ≤ 90 then Char.ofNat (c.toNat + 32) else c

def strToLower (s : String) : String := String.mk (s.data.map lowerChar)

/-- The activate listener deletes every cache name that is neither the
current static nor the current dynamic cache and starts with the shared
`riders-` prefix; `activate` keeps exactly the other stores. -/
def staleCacheName (name : String) : Bool :=
  name != STATIC_CACHE && name != DYNAMIC_CACHE && strStartsWith name "riders-"

def activate (cs : Caches) : Caches :=
  cs.filter (fun p => !staleCacheName p.1)

/-- C4 counterexample: starting from a cache storage holding only the
current static store (zero stale-generation stores — a case the claim
itself includes), activation leaves no dynamic store at all, not exactly
one: the activate listener only deletes caches and never creates any. -/
theorem activate_no_dynamic_store_counterexample :
    activate [(STATIC_CACHE, [])] = [(STATIC_CACHE, [])] ∧
    DYNAMIC_CACHE ∉ Caches.names (activate [(STATIC_CACHE, [])]) := by decide

/-- C4 amended: activation deletes exactly the stores whose name has the
`riders-` prefix and is neither the current static nor the current
dynamic store, and touches no other store; it creates nothing, so when
the current static and dynamic stores exist beforehand (however many
stale-generation stores exist besides), exactly one static and exactly
one dynamic store remain afterwards and no stale store survives. -/
theorem activate_evicts_exactly_stale_caches (cs : Caches)
    (hnd : (Caches.names cs).Nodup)
    (hs : STATIC_CACHE ∈ Caches.names cs)
    (hd : DYNAMIC_CACHE ∈ Caches.names cs) :
    (Caches.names (activate cs)).count STATIC_CACHE = 1 ∧
    (Caches.names (activate cs)).count DYNAMIC_CACHE = 1 ∧
    (∀ n, n ∈ Caches.names (activate cs) → staleCacheName n = false) ∧
    (∀ p : String × Store, p ∈ cs → staleCacheName p.1 = false → p ∈ activate cs) ∧
    (∀ p : String × Store, p ∈ cs → staleCacheName p.1 = true → p ∉ activate cs) := by
  have hsub : (Caches.names (activate cs)).Sublist (Caches.names cs) :=
    (List.filter_sublist cs).map Prod.fst
  have hndA : (Caches.names (activate cs)).Nodup := hnd.sublist hsub
  have hkeep : ∀ p : String × Store, p ∈ cs → staleCacheName p.1 = false →
      p ∈ activate cs := by
    intro p hp hfalse
    exact List.mem_filter.mpr ⟨hp, by simp [hfalse]⟩
  have hmemS : STATIC_CACHE ∈ Caches.names (activate cs) := by
    obtain ⟨p, hp, hp1⟩ := List.mem_map.mp hs
    have : p ∈ activate cs := hkeep p hp (by rw [hp1]; decide)
    simpa [Caches.names, hp1] using List.mem_map_of_mem Prod.fst this
  have hmemD : DYNAMIC_CACHE ∈ Caches.names (activate cs) := by
    obtain ⟨p, hp, hp1⟩ := List.mem_map.mp hd
    have : p ∈ activate cs := hkeep p hp (by rw [hp1]; decide)
    simpa [Caches.names, hp1] using List.mem_map_of_mem Prod.fst this
  refine ⟨List.count_eq_one_of_mem hndA hmemS, List.count_eq_one_of_mem hndA hmemD,
    ?_, hkeep, ?_⟩
  · intro n hn
    obtain ⟨p, hp, hp1⟩ := List.mem_map.mp hn
    have := (List.mem_filter.mp hp).2
    rw [← hp1]
    simpa using this
  · intro p hp htrue hmem
    have := (List.mem_filter.mp hmem).2
    simp [htrue] at this

def lifecycleCaches : Caches :=
  [(STATIC_CACHE, []), (DYNAMIC_CACHE, []),
   ("riders-static-v0.9.0", []), ("riders-dynamic-v0.9.0", []),
   ("riders-luxury-v1.0.0", []), ("riders-temp-a", []), ("riders-temp-b", []),
   ("unrelated-cache", [])]

theorem activate_evicts_exactly_stale_caches_witness :
    ((Caches.names lifecycleCaches).Nodup ∧
      STATIC_CACHE ∈ Caches.names lifecycleCaches ∧
      DYNAMIC_CACHE ∈ Caches.names lifecycleCaches) ∧
    ((Caches.names (activate lifecycleCaches)).count STATIC_CACHE = 1 ∧
     (Caches.names (activate lifecycleCaches)).count DYNAMIC_CACHE = 1 ∧
     (∀ n, n ∈ Caches.names (activate lifecycleCaches) → staleCacheName n = false) ∧
     (∀ p : String × Store, p ∈ lifecycleCaches → staleCacheName p.1 = false →
        p ∈ activate lifecycleCaches) ∧
     (∀ p : String × Store, p ∈ lifecycleCaches → staleCacheName p.1 = true →
        p ∉ activate lifecycleCaches)) :=
  ⟨by decide,
    activate_evicts_exactly_stale_caches lifecycleCaches (by decide) (by decide)
      (by decide)⟩

/-- sw.js `cleanupOldCache`, store part: with more than 50 entries,
delete the keys of the oldest `length - 50` entries (insertion order
being key order); at or below 50, do nothing. -/
def cleanupStore (s : Store) : Store :=
  if 50 < s.length then
    s.filter (fun x => !(((s.map Prod.fst).take (s.length - 50)).contains x.1))
  else s

/-- sw.js `cleanupOldCache`: open the dynamic cache and apply the
size-bounded eviction there. -/
def cleanupOldCache (cs : Caches) : Caches :=
  (cs.openStore DYNAMIC_CACHE).updateStore DYNAMIC_CACHE cleanupStore

inductive MessageData where
  | cleanupCache
  | skipWaiting
  | other (s : String)
  deriving Repr, DecidableEq

/-- The sw.js message listeners: a CLEANUP_CACHE message triggers the
maintenance pass; every other message (SKIP_WAITING only promotes the
worker generation, unknown data and missing data are ignored) leaves the
cache storage untouched. -/
def messageListener (m : Option MessageData) (cs : Caches) : Caches :=
  match m with
  | some MessageData.cleanupCache => cleanupOldCache cs
  | _ => cs

theorem filter_take_keys_eq_drop (s : Store) (k : Nat)
    (hnd : (s.map Prod.fst).Nodup) :
    s.filter (fun x => !(((s.map Prod.fst).take k).contains x.1)) = s.drop k := by
  induction s generalizing k with
  | nil => simp
  | cons e rest ih =>
    simp only [List.map_cons, List.nodup_cons] at hnd
    cases k with
    | zero => simp
    | succ j =>
      have hxne : ∀ x, x ∈ rest → x.1 ≠ e.1 := by
        intro x hx hh
        exact hnd.1 (hh ▸ List.mem_map_of_mem Prod.fst hx)
      calc (e :: rest).filter
            (fun x => !((((e :: rest).map Prod.fst).take (j + 1)).contains x.1))
          = rest.filter (fun x => !(((rest.map Prod.fst).take j).contains x.1)) := by
            simp only [List.map_cons, List.take_succ_cons, List.filter_cons]
            rw [if_neg (by simp [List.contains, List.elem_eq_mem])]
            exact List.filter_congr (by
              intro x hx
              simp [List.contains, List.elem_eq_mem, hxne x hx])
        _ = rest.drop j := ih j hnd.2
        _ = (e :: rest).drop (j + 1) := by simp

/-- C5: the size-bounded eviction of the dynamic store — it runs exactly
on a CLEANUP_CACHE control message (every other message leaves the
storage unchanged, and a strategy write never removes another key); a
dynamic store with n > 50 entries keeps exactly its 50 most recently
inserted entries (FIFO by insertion order), one with n ≤ 50 entries is
unchanged. -/
theorem cleanup_size_bounded_eviction (cs : Caches) (s : Store) (key keyOther : String)
    (r : Response) (hnd : (s.map Prod.fst).Nodup) :
    (messageListener (some MessageData.cleanupCache) cs = cleanupOldCache cs) ∧
    (∀ m, m ≠ some MessageData.cleanupCache → messageListener m cs = cs) ∧
    (Caches.get (cleanupOldCache cs) DYNAMIC_CACHE
      = cleanupStore (Caches.get cs DYNAMIC_CACHE)) ∧
    (50 < s.length →
      cleanupStore s = s.drop (s.length - 50) ∧ (cleanupStore s).length = 50) ∧
    (s.length ≤ 50 → cleanupStore s = s) ∧
    (keyOther ≠ key → (Store.put s key r).matchKey keyOther = s.matchKey keyOther) := by
  refine ⟨rfl, ?_, ?_, fun h50 => ?_, fun hle => ?_,
    fun hne => Store.matchKey_put_ne s key keyOther r hne⟩
  · intro m hm
    match m with
    | none => rfl
    | some MessageData.cleanupCache => exact absurd rfl hm
    | some MessageData.skipWaiting => rfl
    | some (MessageData.other str) => rfl
  · unfold cleanupOldCache
    rw [Caches.get_updateStore_self _ _ _ (Caches.hasStore_openStore_self cs _),
      Caches.get_openStore_self]
  · constructor
    · unfold cleanupStore
      rw [if_pos h50]
      exact filter_take_keys_eq_drop s (s.length - 50) hnd
    · unfold cleanupStore
      rw [if_pos h50, filter_take_keys_eq_drop s (s.length - 50) hnd,
        List.length_drop]
      omega
  · unfold cleanupStore
    rw [if_neg (by omega)]

def seededResponse : Response := { status := 200, statusText := "OK", body := "entry" }

/-- A dynamic store seeded with 60 distinct keys, oldest first. -/
def bigStore : Store :=
  (List.range 60).map (fun i => (toString i, seededResponse))

theorem cleanup_size_bounded_eviction_witness :
    ((bigStore.map Prod.fst).Nodup ∧ 50 < bigStore.length ∧
      some (MessageData.other "PING") ≠ some MessageData.cleanupCache ∧
      "/other" ≠ "/api/x") ∧
    ((cleanupStore bigStore = bigStore.drop (bigStore.length - 50) ∧
      (cleanupStore bigStore).length = 50) ∧
     messageListener (some (MessageData.other "PING")) [] = [] ∧
     (Store.put [] "/api/x" seededResponse).matchKey "/other"
       = Store.matchKey [] "/other") := by
  refine ⟨⟨by decide, by decide, by decide, by decide⟩, ?_, ?_, ?_⟩
  · exact (cleanup_size_bounded_eviction [] bigStore "/api/x" "/other" seededResponse
      (by decide)).2.2.2.1 (by decide)
  · exact (cleanup_size_bounded_eviction [] bigStore "/api/x" "/other" seededResponse
      (by decide)).2.1 (some (MessageData.other "PING")) (by decide)
  · exact (cleanup_size_bounded_eviction [] ([] : Store) "/api/x" "/other" seededResponse
      (by decide)).2.2.2.2.2 (by decide)

/-- Modelled from the spec: the durable offline-queue record. The drain
loop `syncBookings` is in the worker source, but the queue storage
helpers (`getOfflineBookings`, `removeOfflineBooking`) are unimplemented
stubs returning an empty list; §3 of the spec gives the persisted record
the fields (id, kind, payload, authToken, createdAt, attemptCount), and
`attemptCount` is carried here to settle what a drain does to it. -/
structure SyncTask where
  id : Nat
  token : String
  payload : String
  attemptCount : Nat
  deriving Repr, DecidableEq

/-- Whether the POST submission of one task resolves with a 2xx. -/
def taskSucceeds (net : SyncTask → NetResult) (t : SyncTask) : Bool :=
  match net t with
  | NetResult.success r => r.ok
  | NetResult.failure => false

/-- sw.js `syncBookings`: attempt every queued task sequentially in
queue order; a task whose POST resolves 2xx is removed from the durable
queue; a task whose POST rejects (the error is caught and logged) or
resolves non-2xx stays queued, untouched, and the loop continues with
the remaining tasks. Returns the queue left after the drain together
with the ids attempted, in attempt order. -/
def syncBookings (net : SyncTask → NetResult) : List SyncTask → List SyncTask × List Nat
  | [] => ([], [])
  | t :: rest =>
    match net t with
    | NetResult.success r =>
      if r.ok then ((syncBookings net rest).1, t.id :: (syncBookings net rest).2)
      else (t :: (syncBookings net rest).1, t.id :: (syncBookings net rest).2)
    | NetResult.failure =>
      (t :: (syncBookings net rest).1, t.id :: (syncBookings net rest).2)

def bookingTask1 : SyncTask := { id := 1, token := "tok1", payload := "b1", attemptCount := 0 }

def bookingTask2 : SyncTask := { id := 2, token := "tok2", payload := "b2", attemptCount := 0 }

def bookingTask3 : SyncTask := { id := 3, token := "tok3", payload := "b3", attemptCount := 0 }

/-- The spec scenario network: the second task's submission fails, the
other two succeed with 2xx. -/
def bookingNet : SyncTask → NetResult := fun t =>
  if t.id == 2 then NetResult.failure
  else NetResult.success { status := 201, statusText := "Created", body := "done" }

/-- C6 counterexample: in the claim's own 3-task scenario, exactly the
failed task remains queued — but its attemptCount is still 0, not
incremented: nothing in the drain loop ever updates a retained task. -/
theorem syncBookings_attemptCount_counterexample :
    (syncBookings bookingNet [bookingTask1, bookingTask2, bookingTask3]).1
      = [bookingTask2] ∧
    ((syncBookings bookingNet [bookingTask1, bookingTask2, bookingTask3]).1.map
      SyncTask.attemptCount) = [0] ∧
    bookingTask2.attemptCount = 0 := by decide

/-- C6 amended: the drain attempts every queued task sequentially in
queue order; tasks whose submission resolves 2xx are removed and every
other task is retained as an unchanged record (its attemptCount is not
modified), later tasks being attempted regardless of earlier failures —
so in the 3-task scenario with the 2nd failing, exactly that one task
remains after one drain cycle. -/
theorem syncBookings_drain_contract (net : SyncTask → NetResult) (q : List SyncTask) :
    (syncBookings net q).2 = q.map SyncTask.id ∧
    (syncBookings net q).1 = q.filter (fun t => !taskSucceeds net t) ∧
    (∀ t, t ∈ (syncBookings net q).1 → t ∈ q) := by
  induction q with
  | nil => exact ⟨rfl, rfl, fun t h => absurd h (List.not_mem_nil t)⟩
  | cons t rest ih =>
    obtain ⟨ih1, ih2, ih3⟩ := ih
    cases hnet : net t with
    | success r =>
      cases hok : r.ok with
      | true =>
        refine ⟨?_, ?_, ?_⟩
        · simp [syncBookings, hnet, hok, ih1]
        · simp [syncBookings, hnet, hok, ih2, taskSucceeds]
        · intro x hx
          simp only [syncBookings, hnet, hok, if_true] at hx
          exact List.mem_cons_of_mem t (ih3 x hx)
      | false =>
        refine ⟨?_, ?_, ?_⟩
        · simp [syncBookings, hnet, hok, ih1]
        · simp [syncBookings, hnet, hok, ih2, taskSucceeds]
        · intro x hx
          simp only [syncBookings, hnet, hok] at hx
          rcases List.mem_cons.mp hx with h | h
          · exact h ▸ List.mem_cons_self t rest
          · exact List.mem_cons_of_mem t (ih3 x h)
    | failure =>
      refine ⟨?_, ?_, ?_⟩
      · simp [syncBookings, hnet, ih1]
      · simp [syncBookings, hnet, ih2, taskSucceeds]
      · intro x hx
        simp only [syncBookings, hnet] at hx
        rcases List.mem_cons.mp hx with h | h
        · exact h ▸ List.mem_cons_self t rest
        · exact List.mem_cons_of_mem t (ih3 x h)

/- Install-time caching: the two source variants. -/

/-- The manifest of the public/sw.js variant. -/
def urlsToCache : List String :=
  ["/", "/index.html", "/css/style.css", "/js/app.js", "/js/auth.js",
   "/js/rides.js", "/js/vehicle.js", "/js/profile.js", "/js/chat.js",
   "/manifest.json", "/icons/icon-192x192.png", "/icons/icon-512x512.png",
   "https://cdnjs.cloudflare.com/ajax/libs/font-awesome/6.4.0/css/all.min.css"]

/-- `Cache.addAll` as the Cache API defines it: an atomic batch — every
listed URL must fetch and resolve with an ok status, otherwise the whole
operation rejects and not a single entry is written. `some` carries the
store with all entries added, `none` is the rejection. -/
def addAll (net : String → NetResult) (assets : List String) (s : Store) : Option Store :=
  match assets with
  | [] => some s
  | a :: rest =>
    match net a with
    | NetResult.success r => if r.ok then addAll net rest (Store.put s a r) else none
    | NetResult.failure => none

/-- One manifest entry whose fetch rejects or resolves non-ok. -/
def entryFails (net : String → NetResult) (a : String) : Bool :=
  match net a with
  | NetResult.success r => !r.ok
  | NetResult.failure => true

structure InstallOutcome where
  caches : Caches
  completed : Bool
  skipWaitingCalled : Bool
  deriving Repr, DecidableEq

def Caches.setStore (cs : Caches) (name : String) (s : Store) : Caches :=
  cs.updateStore name (fun _ => s)

/-- sw.js install listener: open the static cache and `addAll` the
manifest; on success request immediate activation via `skipWaiting`; the
trailing catch logs any failure, so the event's waitUntil promise always
resolves and the install completes either way. -/
def installListenerA (net : String → NetResult) (cs : Caches) : InstallOutcome :=
  let cs1 := cs.openStore STATIC_CACHE
  match addAll net STATIC_ASSETS (Caches.get cs1 STATIC_CACHE) with
  | some s => { caches := Caches.setStore cs1 STATIC_CACHE s,
                completed := true, skipWaitingCalled := true }
  | none => { caches := cs1, completed := true, skipWaitingCalled := false }

/-- public/sw.js install listener: same shape against its single cache,
its catch commented "Continue anyway - partial cache is better than no
cache"; `skipWaiting` is invoked unconditionally outside the chain. -/
def installListenerB (net : String → NetResult) (cs : Caches) : InstallOutcome :=
  let cs1 := cs.openStore CACHE_NAME
  match addAll net urlsToCache (Caches.get cs1 CACHE_NAME) with
  | some s => { caches := Caches.setStore cs1 CACHE_NAME s,
                completed := true, skipWaitingCalled := true }
  | none => { caches := cs1, completed := true, skipWaitingCalled := true }

/-- A network where exactly the manifest entry `/index.html` fails and
every other asset fetch succeeds. -/
def netOneFailing : String → NetResult := fun url =>
  if url == "/index.html" then NetResult.failure
  else NetResult.success { status := 200, statusText := "OK", body := "asset" }

/-- C7 counterexample: with one failing manifest entry, the public/sw.js
variant completes its install but its store holds none of the assets
that did fetch successfully (the root `/` among them) — `addAll` is
atomic, so no partial subset survives; and the sw.js variant does not
abort its install either. -/
theorem install_policy_counterexample :
    (installListenerB netOneFailing []).completed = true ∧
    Caches.get (installListenerB netOneFailing []).caches CACHE_NAME = [] ∧
    netOneFailing "/" = NetResult.success
      { status := 200, statusText := "OK", body := "asset" } ∧
    (installListenerA netOneFailing []).completed = true := by decide

theorem addAll_none_of_entry_failure (net : String → NetResult) {a : String}
    {assets : List String} (ha : a ∈ assets) (hf : entryFails net a = true) :
    ∀ s, addAll net assets s = none := by
  induction assets with
  | nil => cases ha
  | cons x rest ih =>
    intro s
    rcases List.mem_cons.mp ha with h | h
    · subst h
      unfold entryFails at hf
      cases hnet : net a with
      | success r =>
        rw [hnet] at hf
        simp only [Bool.not_eq_true'] at hf
        simp [addAll, hnet, hf]
      | failure => simp [addAll, hnet]
    · cases hnet : net x with
      | success r =>
        cases hok : r.ok with
        | true => simp [addAll, hnet, hok, ih h]
        | false => simp [addAll, hnet, hok]
      | failure => simp [addAll, hnet]

/-- C7 amended: neither source variant aborts its install on a failing
manifest entry — both catch the rejection and the install completes; and
because the bulk-cache operation is atomic, neither variant stores any
entry of the batch when some entry fails: the cache storage is left as
it was (the store merely opened). The variants differ only in that the
sw.js variant requests immediate activation exactly when all assets
cached, while the public/sw.js variant requests it unconditionally. -/
theorem install_variants_amended (net : String → NetResult) (cs : Caches)
    (a b : String) (ha : a ∈ STATIC_ASSETS) (hfa : entryFails net a = true)
    (hb : b ∈ urlsToCache) (hfb : entryFails net b = true) :
    (installListenerA net cs).completed = true ∧
    (installListenerA net cs).caches = cs.openStore STATIC_CACHE ∧
    (installListenerA net cs).skipWaitingCalled = false ∧
    (installListenerB net cs).completed = true ∧
    (installListenerB net cs).caches = cs.openStore CACHE_NAME ∧
    (installListenerB net cs).skipWaitingCalled = true := by
  have haddA := addAll_none_of_entry_failure net ha hfa
  have haddB := addAll_none_of_entry_failure net hb hfb
  refine ⟨?_, ?_, ?_, ?_, ?_, ?_⟩ <;>
    simp [installListenerA, installListenerB, haddA, haddB]

theorem install_variants_amended_witness :
    (("/index.html" ∈ STATIC_ASSETS) ∧ entryFails netOneFailing "/index.html" = true ∧
     ("/index.html" ∈ urlsToCache)) ∧
    ((installListenerA netOneFailing []).completed = true ∧
     (installListenerA netOneFailing []).caches = Caches.openStore [] STATIC_CACHE ∧
     (installListenerA netOneFailing []).skipWaitingCalled = false ∧
     (installListenerB netOneFailing []).completed = true ∧
     (installListenerB netOneFailing []).caches = Caches.openStore [] CACHE_NAME ∧
     (installListenerB netOneFailing []).skipWaitingCalled = true) :=
  ⟨⟨by decide, by decide, by decide⟩,
    install_variants_amended netOneFailing [] "/index.html" "/index.html"
      (by decide) (by decide) (by decide) (by decide)⟩

/- Deferred-sync tags. -/

inductive SyncAction where
  | drainBookings
  | drainRides
  | noDrain
  deriving Repr, DecidableEq

/-- sw.js sync listener: the tag `background-sync-bookings` drains the
booking queue, `background-sync-rides` drains the ride-offer queue, any
other tag triggers no drain. -/
def syncListener (tag : String) : SyncAction :=
  if tag == "background-sync-bookings" then SyncAction.drainBookings
  else if tag == "background-sync-rides" then SyncAction.drainRides
  else SyncAction.noDrain

/-- pwa.js `syncOfflineData`: the deferred-sync tags the host registers
(both together, when connectivity returns). -/
def registeredSyncTags : List String :=
  ["background-sync-bookings", "background-sync-rides"]

/-- C8 counterexample: the tags the claim names do nothing — a
deferred-trigger event tagged `sync-bookings` (or `sync-rides`) drains
no queue, and the host never registers those tags. -/
theorem sync_tags_counterexample :
    syncListener "sync-bookings" = SyncAction.noDrain ∧
    syncListener "sync-rides" = SyncAction.noDrain ∧
    "sync-bookings" ∉ registeredSyncTags ∧
    "sync-rides" ∉ registeredSyncTags := by decide

/-- C8 amended: the deferred-sync interface uses exactly the two tags
`background-sync-bookings` and `background-sync-rides`; the host
registers both on its connectivity-restored handler, the worker drains
the booking (ride-offer) queue exactly on an event carrying the
corresponding tag, and an event with any other tag triggers no drain. -/
theorem sync_tags_amended (tag : String)
    (h1 : tag ≠ "background-sync-bookings") (h2 : tag ≠ "background-sync-rides") :
    syncListener "background-sync-bookings" = SyncAction.drainBookings ∧
    syncListener "background-sync-rides" = SyncAction.drainRides ∧
    syncListener tag = SyncAction.noDrain ∧
    registeredSyncTags = ["background-sync-bookings", "background-sync-rides"] := by
  refine ⟨by decide, by decide, ?_, rfl⟩
  unfold syncListener
  rw [if_neg (by simp [h1]), if_neg (by simp [h2])]

theorem sync_tags_amended_witness :
    (("sync-bookings" : String) ≠ "background-sync-bookings" ∧
     ("sync-bookings" : String) ≠ "background-sync-rides") ∧
    (syncListener "background-sync-bookings" = SyncAction.drainBookings ∧
     syncListener "background-sync-rides" = SyncAction.drainRides ∧
     syncListener "sync-bookings" = SyncAction.noDrain ∧
     registeredSyncTags = ["background-sync-bookings", "background-sync-rides"]) :=
  ⟨⟨by decide, by decide⟩, sync_tags_amended "sync-bookings" (by decide) (by decide)⟩

/- Notification click routing. -/

structure NotifData where
  url : Option String
  type : Option String
  deriving Repr, DecidableEq

structure ClickOutcome where
  closed : Bool
  navigate : Option String
  deriving Repr, DecidableEq

/-- sw.js notificationclick listener: the notification is always closed
first; the `dismiss` action then does nothing further; otherwise the
target starts at `/` and is overridden by `data.url` only when the
action is `view`, else by type-based inference (`booking` → bookings
view, `ride` → search view). An absent or empty `data.url` is modelled
as `none` (both falsy in the source truthiness test). -/
def notificationClick (action : String) (data : NotifData) : ClickOutcome :=
  if action == "dismiss" then { closed := true, navigate := none }
  else
    { closed := true,
      navigate := some (
        if action == "view" && data.url.isSome then data.url.getD "/"
        else if data.type == some "booking" then "/?bookings=true"
        else if data.type == some "ride" then "/?search=true"
        else "/") }

/-- C9 counterexample: a click on the notification body (empty action —
not a dismiss) with an explicit `data.url` is routed by type-based
inference to the bookings view, not to the explicit URL: `data.url`
takes priority only for the `view` action. -/
theorem notification_url_priority_counterexample :
    notificationClick "" { url := some "/promo", type := some "booking" } =
      { closed := true, navigate := some "/?bookings=true" } := by decide

/-- C9 amended: dismiss closes the notification and navigates nowhere;
an explicit `data.url` takes priority over type-based inference exactly
for the `view` action; every other non-dismiss click is routed by
`data.type` alone — `booking` to the bookings view and `ride` to the
search view — regardless of any explicit `data.url`. -/
theorem notification_click_routing_amended (action : String) (d : NotifData) (u : String) :
    (notificationClick "dismiss" d = { closed := true, navigate := none }) ∧
    (notificationClick "view" { url := some u, type := d.type } =
      { closed := true, navigate := some u }) ∧
    (action ≠ "dismiss" → action ≠ "view" → d.type = some "booking" →
      notificationClick action d =
        { closed := true, navigate := some "/?bookings=true" }) ∧
    (action ≠ "dismiss" → d.url = none → d.type = some "booking" →
      notificationClick action d =
        { closed := true, navigate := some "/?bookings=true" }) ∧
    (action ≠ "dismiss" → d.url = none → d.type = some "ride" →
      notificationClick action d =
        { closed := true, navigate := some "/?search=true" }) := by
  refine ⟨by simp [notificationClick], by simp [notificationClick],
    fun h1 h2 ht => ?_, fun h1 hu ht => ?_, fun h1 hu ht => ?_⟩
  · simp [notificationClick, h1, h2, ht]
  · simp [notificationClick, h1, hu, ht]
  · simp [notificationClick, h1, hu, ht]

theorem notification_click_routing_amended_witness :
    (("" : String) ≠ "dismiss" ∧ ("" : String) ≠ "view" ∧
      (NotifData.mk (some "/promo") (some "booking")).type = some "booking") ∧
    (notificationClick "dismiss" { url := some "/promo", type := some "booking" } =
      { closed := true, navigate := none } ∧
     notificationClick "view"
        (NotifData.mk (some "/target")
          (NotifData.mk (some "/promo") (some "booking")).type) =
      { closed := true, navigate := some "/target" } ∧
     notificationClick "" { url := some "/promo", type := some "booking" } =
      { closed := true, navigate := some "/?bookings=true" }) := by
  have h := notification_click_routing_amended ""
    { url := some "/promo", type := some "booking" } "/target"
  exact ⟨⟨by decide, by decide, by decide⟩, h.1, h.2.1,
    h.2.2.1 (by decide) (by decide) (by decide)⟩

/- Request classification and the fetch engine. -/

structure Url where
  protocol : String
  hostname : String
  pathname : String
  deriving Repr, DecidableEq

def staticExtensions : List String :=
  [".css", ".js", ".png", ".jpg", ".jpeg", ".svg", ".ico", ".woff", ".woff2"]

/-- sw.js `isStaticAsset`. -/
def isStaticAsset (url : Url) : Bool :=
  staticExtensions.any (fun ext => strEndsWith (strToLower url.pathname) ext) ||
  strToLower url.pathname == "/" ||
  strToLower url.pathname == "/index.html" ||
  strToLower url.pathname == "/manifest.json" ||
  url.hostname == "fonts.googleapis.com" ||
  url.hostname == "fonts.gstatic.com" ||
  url.hostname == "cdnjs.cloudflare.com"

/-- sw.js `isAPICall`. -/
def isAPICall (url : Url) : Bool :=
  strStartsWith url.pathname "/api/" ||
  API_CACHE_PATTERNS.any (fun pat => strIncludes url.pathname pat)

structure Request where
  url : Url
  key : String
  navigate : Bool
  deriving Repr, DecidableEq

/-- The synthesized offline fallback response: the fixed JSON payload
carrying the offline marker, with status 503. -/
def offlineResponse : Response :=
  { status := 503, statusText := "Service Unavailable",
    body := "\x7b\"success\":false,\"message\":\"You are currently offline. Please check your internet connection.\",\"offline\":true\x7d" }

/-- sw.js `getOfflineFallback`: a navigation request first falls back to
the cached app-shell root `/`; everything else — and a navigation with
no cached root — receives the synthesized offline response. -/
def getOfflineFallback (req : Request) (cs : Caches) : Response :=
  if req.navigate then
    match cs.matchAll "/" with
    | some c => c
    | none => offlineResponse
  else offlineResponse

/-- sw.js `handleFetch`: route by classification to the three
strategies; a rejection escaping a strategy is caught and replaced by
`getOfflineFallback` (stale-while-revalidate never rejects — its
swallowed failure resolves to undefined, which passes through). -/
def handleFetch (net : NetResult) (req : Request) (cs : Caches) : StrategyOutcome :=
  if isStaticAsset req.url then
    let o := cacheFirst net req.key cs
    match o.result with
    | FetchResult.failed =>
      { result := FetchResult.delivered (getOfflineFallback req o.caches),
        caches := o.caches, netCalls := o.netCalls }
    | _ => o
  else if isAPICall req.url then
    let o := networkFirst net req.key cs
    match o.result with
    | FetchResult.failed =>
      { result := FetchResult.delivered (getOfflineFallback req o.caches),
        caches := o.caches, netCalls := o.netCalls }
    | _ => o
  else
    staleWhileRevalidate net req.key cs

/-- A non-navigation API request. -/
def apiRequest : Request :=
  { url := { protocol := "https:", hostname := "riders.example",
             pathname := "/api/bookings" },
    key := "/api/bookings", navigate := false }

/-- C10 counterexample: a non-navigation API request with an unreachable
network and no cached entry does not surface a failed request to the
caller — it receives the synthesized offline response (fixed payload,
offline marker, status 503), which the claim reserves for
page-navigation requests. -/
theorem offline_fallback_counterexample :
    (handleFetch NetResult.failure apiRequest []).result
      = FetchResult.delivered offlineResponse ∧
    apiRequest.navigate = false ∧
    offlineResponse.status = 503 := by decide

/-- C10 amended: on a request routed to the two rejecting strategies
(StaticAsset or ApiCall classification), a network-unreachable error is
recovered locally by a cached entry for the key when one exists; when
those fallbacks are exhausted, such a request — page navigation or not —
receives the synthesized offline response (fixed payload with the
offline marker and status 503) instead of a propagated failure, a page
navigation first falling back to the cached app-shell root `/` when that
is cached. An Other-classified request never reaches the offline
fallback: its cached dynamic-store entry is returned when one exists,
and otherwise (navigation or not) the swallowed network failure
surfaces as undefined, not as the synthesized response. -/
theorem handleFetch_failure_surfacing_amended (req : Request) (cs : Caches) (c : Response) :
    (isStaticAsset req.url = true → cs.matchAll req.key = some c →
      (handleFetch NetResult.failure req cs).result = FetchResult.delivered c) ∧
    (isStaticAsset req.url = false → isAPICall req.url = true →
      cs.matchAll req.key = some c →
      (handleFetch NetResult.failure req cs).result = FetchResult.delivered c) ∧
    (isStaticAsset req.url = true → cs.matchAll req.key = none →
      req.navigate = false →
      (handleFetch NetResult.failure req cs).result
        = FetchResult.delivered offlineResponse) ∧
    (isStaticAsset req.url = true → cs.matchAll req.key = none →
      req.navigate = true → cs.matchAll "/" = some c →
      (handleFetch NetResult.failure req cs).result = FetchResult.delivered c) ∧
    (isStaticAsset req.url = true → cs.matchAll req.key = none →
      req.navigate = true → cs.matchAll "/" = none →
      (handleFetch NetResult.failure req cs).result
        = FetchResult.delivered offlineResponse) ∧
    (isStaticAsset req.url = false → isAPICall req.url = true →
      cs.matchAll req.key = none → req.navigate = false →
      (handleFetch NetResult.failure req cs).result
        = FetchResult.delivered offlineResponse) ∧
    (isStaticAsset req.url = false → isAPICall req.url = false →
      (Caches.get cs DYNAMIC_CACHE).matchKey req.key = some c →
      (handleFetch NetResult.failure req cs).result = FetchResult.delivered c) ∧
    (isStaticAsset req.url = false → isAPICall req.url = false →
      (Caches.get cs DYNAMIC_CACHE).matchKey req.key = none →
      (handleFetch NetResult.failure req cs).result = FetchResult.undef) ∧
    offlineResponse.status = 503 := by
  refine ⟨fun h1 hc => ?_, fun h1 h2 hc => ?_, fun h1 hn hnav => ?_,
    fun h1 hn hnav hroot => ?_, fun h1 hn hnav hroot => ?_,
    fun h1 h2 hn hnav => ?_, fun h1 h2 hc => ?_, fun h1 h2 hn => ?_, rfl⟩
  · simp [handleFetch, h1, cacheFirst, hc]
  · simp [handleFetch, h1, h2, networkFirst, hc]
  · simp [handleFetch, h1, cacheFirst, hn, getOfflineFallback, hnav]
  · simp [handleFetch, h1, cacheFirst, hn, getOfflineFallback, hnav, hroot]
  · simp [handleFetch, h1, cacheFirst, hn, getOfflineFallback, hnav, hroot]
  · simp [handleFetch, h1, h2, networkFirst, hn, getOfflineFallback, hnav]
  · have hc1 : ((cs.openStore DYNAMIC_CACHE).get DYNAMIC_CACHE).matchKey req.key
        = some c := by
      rw [Caches.get_openStore_self]; exact hc
    simp [handleFetch, h1, h2, staleWhileRevalidate, hc1]
  · have hn1 : ((cs.openStore DYNAMIC_CACHE).get DYNAMIC_CACHE).matchKey req.key
        = none := by
      rw [Caches.get_openStore_self]; exact hn
    simp [handleFetch, h1, h2, staleWhileRevalidate, hn1, swrFetchOutcome]

/-- A navigation request for the app-shell entry page, classified
StaticAsset. -/
def navRequest : Request :=
  { url := { protocol := "https:", hostname := "riders.example",
             pathname := "/index.html" },
    key := "/index.html", navigate := true }

/-- A request classified Other (no static extension or shell path, no
asset CDN host, no API path), here a navigation. -/
def otherNavRequest : Request :=
  { url := { protocol := "https:", hostname := "riders.example",
             pathname := "/dashboard" },
    key := "/dashboard", navigate := true }

def cachedApiResp : Response := { status := 200, statusText := "OK", body := "old api" }

def rootResp : Response := { status := 200, statusText := "OK", body := "app shell" }

theorem handleFetch_failure_surfacing_amended_witness :
    (isStaticAsset apiRequest.url = false ∧ isAPICall apiRequest.url = true ∧
     isStaticAsset navRequest.url = true ∧
     isStaticAsset otherNavRequest.url = false ∧
     isAPICall otherNavRequest.url = false) ∧
    ((handleFetch NetResult.failure apiRequest
        [(DYNAMIC_CACHE, [("/api/bookings", cachedApiResp)])]).result
      = FetchResult.delivered cachedApiResp ∧
     (handleFetch NetResult.failure apiRequest []).result
      = FetchResult.delivered offlineResponse ∧
     (handleFetch NetResult.failure navRequest
        [(STATIC_CACHE, [("/", rootResp)])]).result
      = FetchResult.delivered rootResp ∧
     (handleFetch NetResult.failure navRequest []).result
      = FetchResult.delivered offlineResponse ∧
     (handleFetch NetResult.failure otherNavRequest
        [(DYNAMIC_CACHE, [("/dashboard", cachedApiResp)])]).result
      = FetchResult.delivered cachedApiResp ∧
     (handleFetch NetResult.failure otherNavRequest []).result
      = FetchResult.undef) := by
  have hA := handleFetch_failure_surfacing_amended apiRequest
    [(DYNAMIC_CACHE, [("/api/bookings", cachedApiResp)])] cachedApiResp
  have hB := handleFetch_failure_surfacing_amended apiRequest [] cachedApiResp
  have hC := handleFetch_failure_surfacing_amended navRequest
    [(STATIC_CACHE, [("/", rootResp)])] rootResp
  have hD := handleFetch_failure_surfacing_amended navRequest [] rootResp
  have hE := handleFetch_failure_surfacing_amended otherNavRequest
    [(DYNAMIC_CACHE, [("/dashboard", cachedApiResp)])] cachedApiResp
  have hF := handleFetch_failure_surfacing_amended otherNavRequest [] cachedApiResp
  exact ⟨⟨by decide, by decide, by decide, by decide, by decide⟩,
    hA.2.1 (by decide) (by decide) (by decide),
    hB.2.2.2.2.2.1 (by decide) (by decide) (by decide) (by decide),
    hC.2.2.2.1 (by decide) (by decide) (by decide) (by decide),
    hD.2.2.2.2.1 (by decide) (by decide) (by decide) (by decide),
    hE.2.2.2.2.2.2.1 (by decide) (by decide) (by decide),
    hF.2.2.2.2.2.2.2.1 (by decide) (by decide) (by decide)⟩

end RidersSW
